import Mathlib

/-
Verification of the hashiconf-raft demo application.

The development shallowly embeds the Go sources:
  * fsm.go            - the replicated integer state machine (Apply / Snapshot / Restore)
  * the snapshot file - fsmSnapshot with Persist
  * the HTTP server   - ServeHTTP routing and the key / join handlers
  * config.go         - resolveConfig validation

Machine integers are modelled as Int (Go int is 64-bit and no claim involves
overflow).  Byte-level JSON is modelled by an inductive Json value type: a
payload that is not syntactically valid JSON is represented explicitly, and the
field-matching behaviour of Go encoding/json (exported fields only,
case-insensitive name matching, null as a no-op, type mismatches as errors,
unknown fields ignored, absent fields left at their zero value) is embedded
directly.  External library calls made by resolveConfig (sockaddr template
parsing, net.ParseIP, filepath.Abs) are oracles supplied through a NetEnv
record, and raft engine outcomes (Apply / AddVoter futures) through an
EngineResult record.
-/

/-! ### JSON values -/

/-- A JSON value.  Numbers are restricted to integers: every number this
program reads or writes is a Go int. -/
inductive Json where
  | null : Json
  | bool (b : Bool) : Json
  | num (n : Int) : Json
  | str (s : String) : Json
  | arr (elems : List Json) : Json
  | obj (fields : List (String × Json)) : Json

/-! ### Go encoding/json field matching -/

/-- ASCII case-folded character code.  Go encoding/json matches JSON object
keys to struct field names case-insensitively; folding ASCII letters coincides
with Go's folding on the field names occurring in this program. -/
def foldNat (c : Char) : Nat :=
  if 65 ≤ c.toNat && c.toNat ≤ 90 then c.toNat + 32 else c.toNat

/-- Case-insensitive equality of character lists. -/
def eqFoldL : List Char → List Char → Bool
  | [], [] => true
  | a :: as, b :: bs => foldNat a == foldNat b && eqFoldL as bs
  | _, _ => false

/-- Case-insensitive equality of strings, as used by encoding/json to match
object keys against struct field names and tags. -/
def eqFold (a b : String) : Bool := eqFoldL a.toList b.toList

/-- Unmarshal a JSON value into a Go string field: only a JSON string is
accepted; anything else is an UnmarshalTypeError. -/
def readString : Json → Option String
  | Json.str s => some s
  | _ => none

/-- Unmarshal a JSON value into a Go int field: only a JSON number is
accepted; anything else is an UnmarshalTypeError. -/
def readInt : Json → Option Int
  | Json.num n => some n
  | _ => none

/-- Decode one struct field named `name` (with zero value `zero`) from the key
/ value pairs of a JSON object, following encoding/json: keys are scanned in
order, a key matching `name` case-insensitively decodes into the field with
the last match winning, a JSON null is a no-op, a type mismatch is an error,
and keys matching no field are ignored. -/
def decodeField (fields : List (String × Json)) (name : String)
    (read : Json → Option α) (zero : α) : Option α :=
  List.foldl
    (fun acc kv =>
      Option.bind acc (fun cur =>
        if eqFold kv.1 name then
          match kv.2 with
          | Json.null => some cur
          | j => read j
        else some cur))
    (some zero) fields

/-! ### The event type (fsm.go) -/

/-- The `event` struct of fsm.go: a type tag and an integer value.  The Go
field is named Type; Lean reserves that word, so the field carries a trailing
underscore here. -/
structure event where
  Type_ : String
  Value : Int

/-- json.Unmarshal of a payload into an `event`: the payload must be a JSON
object (or null, which leaves the zero event); the two exported fields decode
per `decodeField`. -/
def unmarshalEvent : Json → Option event
  | Json.obj fields =>
    Option.bind (decodeField fields "Type" readString "") (fun t =>
      Option.bind (decodeField fields "Value" readInt 0) (fun v =>
        some ⟨t, v⟩))
  | Json.null => some ⟨"", 0⟩
  | _ => none

/-- json.Marshal of an `event`: both fields are exported and untagged, so the
output object carries the Go field names. -/
def marshalEvent (e : event) : Json :=
  Json.obj [("Type", Json.str e.Type_), ("Value", Json.num e.Value)]

/-! ### The state machine (fsm.go) -/

/-- The `fsm` struct: the single replicated integer.  The mutex only
serialises access and has no observable effect in a sequential embedding. -/
structure fsm where
  stateValue : Int

/-- The bytes of a Raft log entry as seen by fsm.Apply: either not
syntactically valid JSON, or a JSON value. -/
inductive LogData where
  | malformed : LogData
  | wellFormed (j : Json) : LogData

/-- Outcome of fsm.Apply: either a panic with its message, or a normal return
carrying the interface value handed back to Raft (nil for a set event). -/
inductive ApplyOutcome where
  | panicked (msg : String) : ApplyOutcome
  | ret (value : Option Unit) : ApplyOutcome

/-- True iff the outcome is a panic. -/
def ApplyOutcome.isPanic : ApplyOutcome → Bool
  | ApplyOutcome.panicked _ => true
  | ApplyOutcome.ret _ => false

/-- fsm.Apply: unmarshal the entry (panicking on failure), then switch on the
event type: "set" stores the value and returns nil; any other type panics.
The pair is the state machine after the call together with the outcome; on a
panic the state is unchanged because the panic fires before any mutation. -/
def fsm.Apply (m : fsm) (data : LogData) : fsm × ApplyOutcome :=
  match data with
  | LogData.malformed =>
    (m, ApplyOutcome.panicked "Failed unmarshaling Raft log entry. This is a bug.")
  | LogData.wellFormed j =>
    match unmarshalEvent j with
    | none =>
      (m, ApplyOutcome.panicked "Failed unmarshaling Raft log entry. This is a bug.")
    | some e =>
      if e.Type_ = "set" then
        (⟨e.Value⟩, ApplyOutcome.ret none)
      else
        (m, ApplyOutcome.panicked
          ("Unrecognized event type in Raft log entry: " ++ e.Type_ ++ ". This is a bug."))

/-- Apply a list of log entries in order, keeping the resulting state. -/
def applyAll (m : fsm) (entries : List LogData) : fsm :=
  List.foldl (fun s d => (fsm.Apply s d).1) m entries

/-- The log entry bytes the HTTP server produces for a set event. -/
def setEntryData (v : Int) : LogData :=
  LogData.wellFormed (marshalEvent ⟨"set", v⟩)

/-- The precondition of claim C4: the entry's payload is not valid JSON for an
event, or the decoded event type is not "set". -/
def badEntry : LogData → Bool
  | LogData.malformed => true
  | LogData.wellFormed j =>
    match unmarshalEvent j with
    | none => true
    | some e => e.Type_ != "set"

/-! ### Snapshots (fsm.go and the fsmSnapshot file) -/

/-- The `fsmSnapshot` struct.  Its single field `stateValue` is written in
lower case in the Go source, hence unexported, although it carries the tag
json:"value". -/
structure fsmSnapshot where
  stateValue : Int

/-- fsm.Snapshot: copy the current value into a snapshot handle. -/
def fsm.Snapshot (m : fsm) : fsmSnapshot := ⟨m.stateValue⟩

/-- json.Marshal of an fsmSnapshot.  encoding/json serialises exported fields
only and ignores unexported ones even when they carry a json tag, so the
output is the empty JSON object whatever value the snapshot holds. -/
def fsmSnapshot.marshal (_f : fsmSnapshot) : Json := Json.obj []

/-- fsmSnapshot.Persist: marshal the snapshot and write the bytes to the sink,
then close it.  Marshaling this struct cannot fail, so on a successful sink
the bytes persisted are exactly `fsmSnapshot.marshal`; the result is the JSON
value those bytes denote. -/
def fsmSnapshot.Persist (f : fsmSnapshot) : Json := fsmSnapshot.marshal f

/-- json.Decode of persisted bytes into a fresh fsmSnapshot: any JSON object
(or null) is accepted, but since the struct has no exported fields nothing is
ever populated and the result is the zero struct; a non-object is a decode
error. -/
def unmarshalFsmSnapshot : Json → Option fsmSnapshot
  | Json.obj _ => some ⟨0⟩
  | Json.null => some ⟨0⟩
  | _ => none

/-- fsm.Restore: decode the serialized snapshot, propagating a decode error,
and otherwise overwrite the state value with the decoded snapshot's value. -/
def fsm.Restore (_m : fsm) (serialized : Json) : Except Unit fsm :=
  match unmarshalFsmSnapshot serialized with
  | none => Except.error ()
  | some snapshot => Except.ok ⟨snapshot.stateValue⟩

/-! ### The HTTP server -/

/-- An incoming HTTP request as the handlers observe it: method, URL path, the
value of the Peer-Address header (Header.Get returns the empty string when the
header is absent), and the body (`none` when the bytes are not syntactically
valid JSON). -/
structure HttpRequest where
  method : String
  path : String
  peerAddressHeader : String
  body : Option Json

/-- Outcomes of the raft engine futures the handlers wait on: whether
applyFuture.Error() and addPeerFuture.Error() report an error. -/
structure EngineResult where
  applyError : Bool
  addVoterError : Bool

/-- One raftNode.Apply submission: the event whose marshaled bytes were
submitted, and the timeout passed (5*time.Second). -/
structure ApplyCall where
  ev : event
  timeoutSeconds : Nat

/-- Observable effects of handling one request: every WriteHeader call in
order (net/http honours the first and ignores the rest as superfluous), the
body written, the raftNode.Apply submissions, and the peer addresses passed to
raftNode.AddVoter. -/
structure Effects where
  statusWrites : List Nat
  responseBody : Option Json
  applyCalls : List ApplyCall
  addVoterCalls : List String

/-- The response status of the effects: the first WriteHeader call, which is
the one net/http sends. -/
def responseStatus (eff : Effects) : Option Nat := eff.statusWrites.head?

/-- json.Decode of a request body into the anonymous struct whose single field
NewValue carries the tag json:"newValue". -/
def decodeKeyPostBody : Json → Option Int
  | Json.obj fields => decodeField fields "newValue" readInt 0
  | Json.null => some 0
  | _ => none

/-- httpServer.handleKeyPost: decode the body (malformed → 400 and nothing
else happens); marshal a set event (which cannot fail) and submit it via
raftNode.Apply with a 5 second timeout; a future error → 500, otherwise 200
with an empty body. -/
def handleKeyPost (r : HttpRequest) (eng : EngineResult) : Effects :=
  match Option.bind r.body decodeKeyPostBody with
  | none => ⟨[400], none, [], []⟩
  | some newValue =>
    if eng.applyError then ⟨[500], none, [⟨⟨"set", newValue⟩, 5⟩], []⟩
    else ⟨[200], none, [⟨⟨"set", newValue⟩, 5⟩], []⟩

/-- httpServer.handleKeyGet: write 200, then write the JSON object binding
"value" to the fsm's current stateValue. -/
def handleKeyGet (stateValue : Int) : Effects :=
  ⟨[200], some (Json.obj [("value", Json.num stateValue)]), [], []⟩

/-- httpServer.handleJoin, exactly as written: when the Peer-Address header is
empty a 400 is written but the handler does NOT return, so execution continues
into the AddVoter call with the empty peer address; the future error then
writes 500, otherwise 200 (both superfluous after a 400). -/
def handleJoin (r : HttpRequest) (eng : EngineResult) : Effects :=
  let peerAddress := r.peerAddressHeader
  let earlierWrites : List Nat := if peerAddress = "" then [400] else []
  if eng.addVoterError then ⟨earlierWrites ++ [500], none, [], [peerAddress]⟩
  else ⟨earlierWrites ++ [200], none, [], [peerAddress]⟩

/-- httpServer.handleRequest: dispatch on the method for the key path; any
method other than POST and GET falls through to 405. -/
def handleRequest (stateValue : Int) (r : HttpRequest) (eng : EngineResult) : Effects :=
  if r.method = "POST" then handleKeyPost r eng
  else if r.method = "GET" then handleKeyGet stateValue
  else ⟨[405], none, [], []⟩

/-- Substring test on character lists: does the second list contain the first
as a contiguous run anywhere? -/
def containsSubList (sub : List Char) : List Char → Bool
  | [] => sub.isEmpty
  | c :: rest => List.isPrefixOf sub (c :: rest) || containsSubList sub rest

/-- strings.Contains. -/
def strContains (s sub : String) : Bool := containsSubList sub.toList s.toList

/-- httpServer.ServeHTTP: a path containing "/key" goes to the key handlers, a
path containing "/join" goes to the join handler, anything else is answered
400. -/
def ServeHTTP (stateValue : Int) (r : HttpRequest) (eng : EngineResult) : Effects :=
  if strContains r.path "/key" then handleRequest stateValue r eng
  else if strContains r.path "/join" then handleJoin r eng
  else ⟨[400], none, [], []⟩

/-! ### Configuration (config.go) -/

/-- The RawConfig struct: the unvalidated command line values. -/
structure RawConfig where
  BindAddress : String
  JoinAddress : String
  RaftPort : Int
  HTTPPort : Int
  DataDir : String
  Bootstrap : Bool

/-- A ConfigError: the configuration point at fault and the underlying error
message. -/
structure ConfigError where
  ConfigurationPoint : String
  ErrMsg : String

/-- A net.TCPAddr as resolveConfig builds it: the bind IP (possibly nil when
its resolution failed) and the port. -/
structure TCPAddr where
  IP : Option String
  Port : Int

/-- The resolved Config struct. -/
structure Config where
  RaftAddress : TCPAddr
  HTTPAddress : TCPAddr
  JoinAddress : String
  DataDir : String
  Bootstrap : Bool

/-- The external library functions resolveConfig calls, as oracles: sockaddr
template.Parse (may fail with an error message), net.ParseIP (nil on failure),
and filepath.Abs (may fail with an error message). -/
structure NetEnv where
  templateParse : String → Except String String
  parseIP : String → Option String
  filepathAbs : String → Except String String

/-- The bind-address step of resolveConfig: template.Parse, then net.ParseIP;
either failure yields a nil bind address and one "bind-address" ConfigError. -/
def bindAddrErrors (env : NetEnv) (addr : String) : Option String × List ConfigError :=
  match env.templateParse addr with
  | Except.error msg => (none, [⟨"bind-address", msg⟩])
  | Except.ok resolvedBindAddr =>
    match env.parseIP resolvedBindAddr with
    | none => (none, [⟨"bind-address", "cannot parse IP address: " ++ resolvedBindAddr⟩])
    | some ip => (some ip, [])

/-- The port range check of resolveConfig, for the named configuration point:
a port below 1 or above 65536 is rejected (the source condition is
rawConfig.Port < 1 || rawConfig.Port > 65536). -/
def portRangeErrors (point : String) (port : Int) : List ConfigError :=
  if port < 1 ∨ port > 65536 then
    [⟨point, "port numbers must be 1 < port < 65536"⟩]
  else []

/-- The data-dir step of resolveConfig: filepath.Abs, failure yielding one
"data-dir" ConfigError. -/
def dataDirErrors (env : NetEnv) (dir : String) : String × List ConfigError :=
  match env.filepathAbs dir with
  | Except.error msg => ("", [⟨"data-dir", msg⟩])
  | Except.ok abs => (abs, [])

/-- resolveConfig: run every check, appending each failure to the multierror
in source order (bind-address, raft-port, http-port, data-dir); ErrorOrNil
returns the accumulated errors when any check failed, otherwise the resolved
Config is built. -/
def resolveConfig (env : NetEnv) (rawConfig : RawConfig) : Except (List ConfigError) Config :=
  let bind := bindAddrErrors env rawConfig.BindAddress
  let raftErrs := portRangeErrors "raft-port" rawConfig.RaftPort
  let raftAddr : TCPAddr := ⟨bind.1, rawConfig.RaftPort⟩
  let httpErrs := portRangeErrors "http-port" rawConfig.HTTPPort
  let httpAddr : TCPAddr := ⟨bind.1, rawConfig.HTTPPort⟩
  let dataDir := dataDirErrors env rawConfig.DataDir
  let errors := bind.2 ++ raftErrs ++ httpErrs ++ dataDir.2
  if errors.isEmpty then
    Except.ok ⟨raftAddr, httpAddr, rawConfig.JoinAddress, dataDir.1, rawConfig.Bootstrap⟩
  else
    Except.error errors

/-- The configuration points named by a resolveConfig failure (empty on
success). -/
def errorPoints : Except (List ConfigError) Config → List String
  | Except.error errs => errs.map ConfigError.ConfigurationPoint
  | Except.ok _ => []

/-! ### Concrete inputs used in witnesses and counterexamples -/

/-- A benign library environment: template parsing and filepath.Abs behave as
the identity and every string parses as an IP. -/
def okEnv : NetEnv :=
  ⟨fun s => Except.ok s, fun s => some s, fun s => Except.ok s⟩

/-- A library environment whose sockaddr template parsing always fails. -/
def badBindEnv : NetEnv :=
  ⟨fun _ => Except.error "template parse failed", fun s => some s, fun s => Except.ok s⟩

/-- A raw configuration whose raft port is 65536, one past the largest valid
TCP port. -/
def rawPort65536 : RawConfig := ⟨"127.0.0.1", "", 65536, 8000, "/data", false⟩

/-- A raw configuration whose raft port is 0, below the valid range. -/
def rawPort0 : RawConfig := ⟨"127.0.0.1", "", 0, 8000, "/data", false⟩

/-- A POST to the join path carrying no Peer-Address header. -/
def joinNoHeaderReq : HttpRequest := ⟨"POST", "/join", "", none⟩

/-- A GET on the join path with a Peer-Address header. -/
def getJoinReq : HttpRequest := ⟨"GET", "/join", "peer1", none⟩

/-- Marshaled set entries with values 3 and 5. -/
def setJs : List Json := [marshalEvent ⟨"set", 3⟩, marshalEvent ⟨"set", 5⟩]

/-! ### Helper lemmas -/

/-- Marshaling an event and unmarshaling it recovers the event. -/
theorem unmarshalEvent_marshalEvent (e : event) :
    unmarshalEvent (marshalEvent e) = some e := rfl

/-- Applying a list of entries that all decode to set events drives the state
to the last entry's value (or leaves it alone when the list is empty). -/
theorem applyAll_wellformed_set (js : List Json) (vs : List Int)
    (h : List.Forall₂ (fun j v => unmarshalEvent j = some ⟨"set", v⟩) js vs) :
    ∀ m : fsm, applyAll m (js.map LogData.wellFormed) = ⟨vs.getLastD m.stateValue⟩ := by
  induction h with
  | nil => intro m; rfl
  | @cons j v js' vs' hjv _ ih =>
    intro m
    have h1 : (fsm.Apply m (LogData.wellFormed j)).1 = ⟨v⟩ := by
      simp [fsm.Apply, hjv]
    calc applyAll m ((j :: js').map LogData.wellFormed)
        = applyAll (fsm.Apply m (LogData.wellFormed j)).1 (js'.map LogData.wellFormed) := rfl
      _ = applyAll ⟨v⟩ (js'.map LogData.wellFormed) := by rw [h1]
      _ = ⟨vs'.getLastD v⟩ := ih ⟨v⟩
      _ = ⟨(v :: vs').getLastD m.stateValue⟩ := by cases vs' <;> rfl

/-- decodeField falls through to the zero value when no object key matches the
field name even case-insensitively. -/
theorem decodeField_no_match {α : Type} (name : String) (read : Json → Option α) :
    ∀ (fields : List (String × Json)) (zero : α),
    fields.all (fun kv => !(eqFold kv.1 name)) = true →
    decodeField fields name read zero = some zero := by
  intro fields
  induction fields with
  | nil => intro zero _; rfl
  | cons kv rest ih =>
    intro zero h
    rw [List.all_cons, Bool.and_eq_true] at h
    have h1 : eqFold kv.1 name = false := by
      cases hcase : eqFold kv.1 name
      · rfl
      · rw [hcase] at h; exact absurd h.1 (by simp)
    have step : decodeField (kv :: rest) name read zero = decodeField rest name read zero := by
      unfold decodeField
      rw [List.foldl_cons]
      simp [h1]
    rw [step]
    exact ih zero h.2

/-- A failed bind-address resolution produces exactly one ConfigError, naming
the bind-address configuration point. -/
theorem bindAddrErrors_of_none (env : NetEnv) (addr : String)
    (h : (bindAddrErrors env addr).1 = none) :
    ∃ msg, (bindAddrErrors env addr).2 = [⟨"bind-address", msg⟩] := by
  cases henv : env.templateParse addr with
  | error msg => exact ⟨msg, by simp [bindAddrErrors, henv]⟩
  | ok s =>
    cases hip : env.parseIP s with
    | none =>
      exact ⟨"cannot parse IP address: " ++ s, by simp [bindAddrErrors, henv, hip]⟩
    | some ip =>
      have hall : bindAddrErrors env addr = (some ip, []) := by
        simp [bindAddrErrors, henv, hip]
      rw [hall] at h
      exact absurd h (by simp)

/-! ### Claim theorems -/

/-- Claim C1 (code bug).  The snapshot round-trip law fails: a state machine
holding 42 is snapshotted, the snapshot persisted, and a fresh state machine
restored from the persisted bytes, yet the restored value is 0, not 42 - the
persisted form is the empty JSON object because fsmSnapshot's only field is
unexported and encoding/json never serialises it. -/
theorem snapshot_persist_restore_drops_value :
    fsm.Restore ⟨0⟩ (fsmSnapshot.Persist (fsm.Snapshot ⟨42⟩)) = Except.ok ⟨0⟩ ∧
    fsmSnapshot.Persist (fsm.Snapshot ⟨42⟩) = Json.obj [] :=
  ⟨rfl, rfl⟩

/-- Claim C2 (code bug).  A POST to the join path with an empty Peer-Address
header is answered 400 as claimed, but the handler is missing a return after
WriteHeader, so it still calls raftNode.AddVoter - with the empty peer
address - contradicting the claim that the consensus engine is never
contacted on this path. -/
theorem join_missing_header_still_adds_voter :
    ServeHTTP 0 joinNoHeaderReq ⟨false, false⟩ = ⟨[400, 200], none, [], [""]⟩ ∧
    responseStatus (ServeHTTP 0 joinNoHeaderReq ⟨false, false⟩) = some 400 ∧
    (ServeHTTP 0 joinNoHeaderReq ⟨false, false⟩).addVoterCalls ≠ [] :=
  ⟨rfl, rfl, by decide⟩

/-- Claim C3 (confirmed).  Applying any list of entries that decode to set
events to two fresh state machines leaves both with the same value, that value
is the last entry's value, and applying a set entry returns nil. -/
theorem set_entries_deterministic (js : List Json) (vs : List Int)
    (a b m : fsm) (j : Json) (w : Int)
    (h : List.Forall₂ (fun jj vv => unmarshalEvent jj = some ⟨"set", vv⟩) js vs)
    (ha : a.stateValue = 0) (hb : b.stateValue = 0)
    (hj : unmarshalEvent j = some ⟨"set", w⟩) :
    applyAll a (js.map LogData.wellFormed) = applyAll b (js.map LogData.wellFormed) ∧
    (applyAll a (js.map LogData.wellFormed)).stateValue = vs.getLastD 0 ∧
    (fsm.Apply m (LogData.wellFormed j)).2 = ApplyOutcome.ret none := by
  have hA := applyAll_wellformed_set js vs h a
  have hB := applyAll_wellformed_set js vs h b
  refine ⟨?_, ?_, ?_⟩
  · rw [hA, hB, ha, hb]
  · rw [hA, ha]
  · simp [fsm.Apply, hj]

/-- Witness for C3 at the concrete entry lists with values 3 and 5. -/
theorem set_entries_deterministic_witness :
    applyAll ⟨0⟩ (setJs.map LogData.wellFormed) = applyAll ⟨0⟩ (setJs.map LogData.wellFormed) ∧
    (applyAll ⟨0⟩ (setJs.map LogData.wellFormed)).stateValue = [3, 5].getLastD 0 ∧
    (fsm.Apply ⟨7⟩ (LogData.wellFormed (marshalEvent ⟨"set", 4⟩))).2 = ApplyOutcome.ret none :=
  set_entries_deterministic setJs [3, 5] ⟨0⟩ ⟨0⟩ ⟨7⟩ (marshalEvent ⟨"set", 4⟩) 4
    (List.Forall₂.cons rfl (List.Forall₂.cons rfl List.Forall₂.nil)) rfl rfl rfl

/-- Claim C4 (confirmed).  An entry whose payload is not valid JSON for an
event, or whose decoded type is not "set", makes Apply panic, and the state
value is unchanged on that path. -/
theorem apply_bad_entry_panics (m : fsm) (d : LogData) (h : badEntry d = true) :
    ((fsm.Apply m d).2).isPanic = true ∧ (fsm.Apply m d).1 = m := by
  cases d with
  | malformed => exact ⟨rfl, rfl⟩
  | wellFormed j =>
    cases hu : unmarshalEvent j with
    | none => simp [fsm.Apply, hu, ApplyOutcome.isPanic]
    | some e =>
      have hne : e.Type_ ≠ "set" := by
        simp [badEntry, hu, bne_iff_ne] at h
        exact h
      simp [fsm.Apply, hu, hne, ApplyOutcome.isPanic]

/-- Witness for C4 at a well-formed entry of the unrecognized type delete. -/
theorem apply_bad_entry_panics_witness :
    badEntry (LogData.wellFormed (Json.obj [("Type", Json.str "delete")])) = true ∧
    (((fsm.Apply ⟨7⟩ (LogData.wellFormed (Json.obj [("Type", Json.str "delete")]))).2).isPanic = true ∧
     (fsm.Apply ⟨7⟩ (LogData.wellFormed (Json.obj [("Type", Json.str "delete")]))).1 = ⟨7⟩) :=
  ⟨rfl, apply_bad_entry_panics ⟨7⟩ (LogData.wellFormed (Json.obj [("Type", Json.str "delete")])) rfl⟩

/-- Claim C5 (code bug).  resolveConfig's range check is port < 1 || port >
65536, so the out-of-range port 65536 is accepted without any ConfigError,
although the claim (and the code's own error message) puts the upper bound at
65535. -/
theorem resolveConfig_accepts_port_65536 :
    resolveConfig okEnv rawPort65536 =
      Except.ok ⟨⟨some "127.0.0.1", 65536⟩, ⟨some "127.0.0.1", 8000⟩, "", "/data", false⟩ ∧
    errorPoints (resolveConfig okEnv rawPort65536) = [] :=
  ⟨rfl, rfl⟩

/-- Claim C6 (confirmed).  When the bind address fails to resolve AND the raft
port is out of the range the code checks, resolveConfig returns an aggregate
error naming both configuration points. -/
theorem resolveConfig_accumulates_all_errors (env : NetEnv) (raw : RawConfig)
    (hbind : (bindAddrErrors env raw.BindAddress).1 = none)
    (hport : raw.RaftPort < 1 ∨ raw.RaftPort > 65536) :
    "bind-address" ∈ errorPoints (resolveConfig env raw) ∧
    "raft-port" ∈ errorPoints (resolveConfig env raw) := by
  obtain ⟨msg, hb2⟩ := bindAddrErrors_of_none env raw.BindAddress hbind
  have hre : portRangeErrors "raft-port" raw.RaftPort =
      [⟨"raft-port", "port numbers must be 1 < port < 65536"⟩] := by
    unfold portRangeErrors
    rw [if_pos hport]
  unfold resolveConfig errorPoints
  simp [hb2, hre]

/-- Witness for C6: template parsing fails and the raft port is 0. -/
theorem resolveConfig_accumulates_all_errors_witness :
    (bindAddrErrors badBindEnv rawPort0.BindAddress).1 = none ∧
    ("bind-address" ∈ errorPoints (resolveConfig badBindEnv rawPort0) ∧
     "raft-port" ∈ errorPoints (resolveConfig badBindEnv rawPort0)) :=
  ⟨rfl, resolveConfig_accumulates_all_errors badBindEnv rawPort0 rfl (Or.inl (by decide))⟩

/-- Claim C7 (confirmed).  On a POST to the key path: a body that does not
decode leads to 400 with no engine submission (hence no state change); a body
that decodes to v leads to one raftNode.Apply submission of the set event for
v with a 5 second timeout, answered 500 when the future reports an error and
200 with an empty body otherwise. -/
theorem handleKeyPost_behavior (stateValue : Int) (r : HttpRequest) (eng : EngineResult)
    (hm : r.method = "POST") (hp : strContains r.path "/key" = true) :
    (Option.bind r.body decodeKeyPostBody = none →
      ServeHTTP stateValue r eng = ⟨[400], none, [], []⟩) ∧
    (∀ v : Int, Option.bind r.body decodeKeyPostBody = some v →
      (ServeHTTP stateValue r eng).applyCalls = [⟨⟨"set", v⟩, 5⟩] ∧
      (eng.applyError = true →
        ServeHTTP stateValue r eng = ⟨[500], none, [⟨⟨"set", v⟩, 5⟩], []⟩) ∧
      (eng.applyError = false →
        ServeHTTP stateValue r eng = ⟨[200], none, [⟨⟨"set", v⟩, 5⟩], []⟩)) := by
  have hroute : ServeHTTP stateValue r eng = handleKeyPost r eng := by
    unfold ServeHTTP handleRequest
    rw [hp, hm]
    simp
  constructor
  · intro hb
    rw [hroute]
    unfold handleKeyPost
    rw [hb]
  · intro v hb
    rw [hroute]
    unfold handleKeyPost
    rw [hb]
    cases he : eng.applyError <;> simp

/-- Witness for C7: a POST of the body binding newValue to 9, with the engine
accepting the entry. -/
theorem handleKeyPost_behavior_witness :
    ServeHTTP 7 ⟨"POST", "/key", "", some (Json.obj [("newValue", Json.num 9)])⟩ ⟨false, false⟩ =
      ⟨[200], none, [⟨⟨"set", 9⟩, 5⟩], []⟩ :=
  ((handleKeyPost_behavior 7 ⟨"POST", "/key", "", some (Json.obj [("newValue", Json.num 9)])⟩
      ⟨false, false⟩ rfl rfl).2 9 rfl).2.2 rfl

/-- Claim C8 (confirmed).  A GET on the key path is answered 200 with the JSON
object binding "value" to the current state value, performs no engine call,
and any two such requests against the same state value get identical
responses. -/
theorem handleKeyGet_pure (stateValue : Int) (r r' : HttpRequest) (eng eng' : EngineResult)
    (hm : r.method = "GET") (hp : strContains r.path "/key" = true)
    (hm' : r'.method = "GET") (hp' : strContains r'.path "/key" = true) :
    ServeHTTP stateValue r eng =
      ⟨[200], some (Json.obj [("value", Json.num stateValue)]), [], []⟩ ∧
    ServeHTTP stateValue r eng = ServeHTTP stateValue r' eng' := by
  have h1 : ServeHTTP stateValue r eng = handleKeyGet stateValue := by
    unfold ServeHTTP handleRequest
    rw [hp, hm]
    simp
  have h2 : ServeHTTP stateValue r' eng' = handleKeyGet stateValue := by
    unfold ServeHTTP handleRequest
    rw [hp', hm']
    simp
  exact ⟨h1, by rw [h1, h2]⟩

/-- Witness for C8: two different GET requests on the key path, one holding a
stale body and header, both answered identically. -/
theorem handleKeyGet_pure_witness :
    ServeHTTP 7 ⟨"GET", "/key", "", none⟩ ⟨false, false⟩ =
      ⟨[200], some (Json.obj [("value", Json.num 7)]), [], []⟩ ∧
    ServeHTTP 7 ⟨"GET", "/key", "", none⟩ ⟨false, false⟩ =
      ServeHTTP 7 ⟨"GET", "/v1/key", "peer1", some Json.null⟩ ⟨true, true⟩ :=
  handleKeyGet_pure 7 ⟨"GET", "/key", "", none⟩ ⟨"GET", "/v1/key", "peer1", some Json.null⟩
    ⟨false, false⟩ ⟨true, true⟩ rfl rfl rfl rfl

/-- Counterexample to claim C9 as stated: a GET on the join path is not
answered 405 - the join handler performs no method check - and it even invokes
AddVoter. -/
theorem get_join_not_405 :
    responseStatus (ServeHTTP 0 getJoinReq ⟨false, false⟩) = some 200 ∧
    (ServeHTTP 0 getJoinReq ⟨false, false⟩).addVoterCalls = ["peer1"] ∧
    responseStatus (ServeHTTP 0 getJoinReq ⟨false, false⟩) ≠ some 405 :=
  ⟨rfl, rfl, by decide⟩

/-- Claim C9 (corrected).  A request whose path contains neither "/key" nor
"/join" is answered 400 with no engine call; a request on the key path with a
method other than POST and GET is answered 405 with no engine call.  The join
path, however, dispatches every method to the join handler. -/
theorem routing_amended (stateValue : Int) (r : HttpRequest) (eng : EngineResult)
    (h : (strContains r.path "/key" = false ∧ strContains r.path "/join" = false) ∨
         (strContains r.path "/key" = true ∧ r.method ≠ "POST" ∧ r.method ≠ "GET")) :
    (ServeHTTP stateValue r eng).applyCalls = [] ∧
    (ServeHTTP stateValue r eng).addVoterCalls = [] ∧
    responseStatus (ServeHTTP stateValue r eng) =
      some (if strContains r.path "/key" then 405 else 400) := by
  rcases h with ⟨hk, hj⟩ | ⟨hk, hpost, hget⟩
  · unfold ServeHTTP
    rw [hk, hj]
    simp [responseStatus]
  · unfold ServeHTTP handleRequest
    rw [hk]
    simp [responseStatus, hpost, hget]

/-- Witness for C9 (amended) at a DELETE on the key path. -/
theorem routing_amended_witness :
    (ServeHTTP 0 ⟨"DELETE", "/key", "", none⟩ ⟨false, false⟩).applyCalls = [] ∧
    (ServeHTTP 0 ⟨"DELETE", "/key", "", none⟩ ⟨false, false⟩).addVoterCalls = [] ∧
    responseStatus (ServeHTTP 0 ⟨"DELETE", "/key", "", none⟩ ⟨false, false⟩) =
      some (if strContains "/key" "/key" then 405 else 400) :=
  routing_amended 0 ⟨"DELETE", "/key", "", none⟩ ⟨false, false⟩
    (Or.inr ⟨rfl, by decide, by decide⟩)

/-- Claim C10 (confirmed).  A POST to the key path whose body is a JSON object
with no key matching newValue is not rejected: the absent field keeps its zero
value, one set event with value 0 is submitted to the engine, and the response
is never 400. -/
theorem key_post_without_newValue (stateValue : Int) (r : HttpRequest) (eng : EngineResult)
    (fields : List (String × Json))
    (hm : r.method = "POST") (hp : strContains r.path "/key" = true)
    (hb : r.body = some (Json.obj fields))
    (hf : fields.all (fun kv => !(eqFold kv.1 "newValue")) = true) :
    (ServeHTTP stateValue r eng).applyCalls = [⟨⟨"set", 0⟩, 5⟩] ∧
    responseStatus (ServeHTTP stateValue r eng) ≠ some 400 := by
  have hdec : Option.bind r.body decodeKeyPostBody = some 0 := by
    rw [hb]
    unfold decodeKeyPostBody
    simpa using decodeField_no_match "newValue" readInt fields 0 hf
  have hroute : ServeHTTP stateValue r eng = handleKeyPost r eng := by
    unfold ServeHTTP handleRequest
    rw [hp, hm]
    simp
  rw [hroute]
  unfold handleKeyPost
  rw [hdec]
  cases he : eng.applyError <;> simp [responseStatus]

/-- Witness for C10: a POST of an unrelated JSON object, with the engine
accepting the entry. -/
theorem key_post_without_newValue_witness :
    (ServeHTTP 7 ⟨"POST", "/key", "", some (Json.obj [("other", Json.num 3)])⟩
        ⟨false, false⟩).applyCalls = [⟨⟨"set", 0⟩, 5⟩] ∧
    responseStatus (ServeHTTP 7 ⟨"POST", "/key", "", some (Json.obj [("other", Json.num 3)])⟩
        ⟨false, false⟩) ≠ some 400 :=
  key_post_without_newValue 7 ⟨"POST", "/key", "", some (Json.obj [("other", Json.num 3)])⟩
    ⟨false, false⟩ [("other", Json.num 3)] rfl rfl rfl rfl
